import Mathlib

/-!
Verification of the go-connection-hub repository: a shallow embedding of the
connection-hub core (hub registry and event loop, SSE and WebSocket connection
variants, message envelope / builder / validator) together with theorems that
settle the claims about it.

Conventions of the embedding:
- Go strings are Lean Strings (a Go byte is modelled as a Char).
- Go `interface{}` payloads are modelled by the inductive GoValue, covering the
  value shapes the program constructs plus representatives of the
  non-JSON-serializable Go values (channels, functions).
- Fallible Go functions return Except/Option; `nil` errors are `none`/`.ok`.
- Mutable objects (connections, the hub) are explicit state records; a Go
  method that mutates its receiver becomes a function from the state to the
  new state (paired with its return value).
- Goroutine scheduling and real time are outside the embedding; blocking
  `select` statements are modelled by their deterministic outcome in a
  quiescent system (a queue with room accepts, a full queue times out), and
  the nondeterministic races are noted at each definition.
-/

/-- GoValue models a Go `interface{}` payload: the JSON-friendly value shapes
the program builds (strings, ints, bools, byte slices, string-keyed maps)
plus channel and function values, which `encoding/json` rejects. A map is a
field list in iteration order. -/
inductive GoValue where
  | vString (s : String)
  | vInt (n : Int)
  | vBool (b : Bool)
  | vBytes (s : String)
  | vStrMap (fields : List (String × GoValue))
  | vChan
  | vFunc

/-- Models one character of Go encoding/json string escaping (the common
escapes; HTML escaping of angle brackets is not needed by any claim). -/
def jsonEscapeChar (c : Char) : String :=
  if c = '"' then "\\\""
  else if c = '\\' then "\\\\"
  else if c = '\n' then "\\n"
  else if c = '\r' then "\\r"
  else if c = '\t' then "\\t"
  else String.singleton c

/-- Models Go encoding/json quoting of a string value. -/
def jsonQuote (s : String) : String :=
  "\"" ++ String.join (s.data.map jsonEscapeChar) ++ "\""

/-- Base64 alphabet used by Go encoding/json for []byte values. -/
def base64Chars : String :=
  "ABCDEFGHIJKLMNOPQRSTUVWXYZabcdefghijklmnopqrstuvwxyz0123456789+/"

/-- Character of the base64 alphabet at a 6-bit index. -/
def base64At (i : Nat) : String :=
  String.singleton (base64Chars.data.getD (i % 64) 'A')

/-- Models standard base64 encoding over a byte list. -/
def base64EncodeBytes : List Nat → String
  | [] => ""
  | [b1] =>
    base64At (b1 / 4) ++ base64At (b1 % 4 * 16) ++ "=="
  | [b1, b2] =>
    base64At (b1 / 4) ++ base64At (b1 % 4 * 16 + b2 / 16) ++
      base64At (b2 % 16 * 4) ++ "="
  | b1 :: b2 :: b3 :: rest =>
    base64At (b1 / 4) ++ base64At (b1 % 4 * 16 + b2 / 16) ++
      base64At (b2 % 16 * 4 + b3 / 64) ++ base64At (b3 % 64) ++
      base64EncodeBytes rest

/-- Models Go base64 of a byte string (each Char stands for one byte). -/
def base64Encode (s : String) : String :=
  base64EncodeBytes (s.data.map (fun c => c.toNat % 256))

mutual

/-- Models Go `json.Marshal` on a GoValue: channels and functions fail,
everything else renders; a map renders its fields in iteration order. -/
def jsonEncode : GoValue → Option String
  | .vString s => some (jsonQuote s)
  | .vInt n => some (toString n)
  | .vBool b => some (if b then "true" else "false")
  | .vBytes s => some (jsonQuote (base64Encode s))
  | .vChan => none
  | .vFunc => none
  | .vStrMap fs =>
    match jsonEncodeFields fs with
    | some body => some ("\x7b" ++ body ++ "\x7d")
    | none => none

/-- Models Go `json.Marshal` on the field list of a map value. -/
def jsonEncodeFields : List (String × GoValue) → Option String
  | [] => some ""
  | (k, v) :: rest =>
    match jsonEncode v, jsonEncodeFields rest with
    | some ev, some er =>
      some (jsonQuote k ++ ":" ++ ev ++ (if rest.isEmpty then "" else ",") ++ er)
    | _, _ => none

end

/-- A GoValue is JSON-serializable when `json.Marshal` succeeds on it. -/
def jsonMarshalable (v : GoValue) : Bool :=
  (jsonEncode v).isSome

/-- Message mirrors the Go struct `hub.Message`: ID, Type, Data, Headers.
Headers (a Go map[string]string) is a field list in iteration order;
Data is `none` when the Go interface value is nil. The Go field `Type` is
renamed `mtype` because `Type` is reserved in Lean. -/
structure Message where
  id : String
  mtype : String
  data : Option GoValue
  headers : List (String × String)

/-- Go map read `headers[key]`: the value at a key, if present. -/
def headerGet (hs : List (String × String)) (key : String) : Option String :=
  (hs.find? (fun p => p.1 = key)).map (fun p => p.2)

/-- Go map write `headers[key] = value`: replace an existing entry or append. -/
def headerSet (hs : List (String × String)) (key value : String) :
    List (String × String) :=
  if (hs.find? (fun p => p.1 = key)).isSome then
    hs.map (fun p => if p.1 = key then (key, value) else p)
  else hs ++ [(key, value)]

/-- MessageValidator.Validate: rejects a nil message, an empty ID, an empty
Type, and non-nil Data that json.Marshal rejects; `none` means no error. -/
def validate (message : Option Message) : Option String :=
  match message with
  | none => some "message cannot be nil"
  | some m =>
    if m.id = "" then some "message ID cannot be empty"
    else if m.mtype = "" then some "message type cannot be empty"
    else
      match m.data with
      | none => none
      | some d =>
        if jsonMarshalable d then none
        else some "message data must be JSON serializable"

/-- Models Go time layout "20060102150405" rendering in generateMessageID.
The wall clock is passed in explicitly; the claims depend only on the rendered
string, so the seconds counter is rendered as its decimal digits. -/
def timeFormatCompact (now : Nat) : String :=
  toString now

/-- Models time.Now().UTC().Format(time.RFC3339) used by WithTimestamp; the
wall clock is passed in explicitly and only the presence of the rendered
value matters to the claims. -/
def rfc3339 (now : Nat) : String :=
  toString now

/-- Character set used by randomString. -/
def charset : String :=
  "abcdefghijklmnopqrstuvwxyzABCDEFGHIJKLMNOPQRSTUVWXYZ0123456789"

/-- randomString from message.go: builds a string of the given length whose
every byte is charset[UnixNano % 62]; the nanosecond clock is a parameter. -/
def randomString (length : Nat) (nano : Nat) : String :=
  String.mk (List.replicate length (charset.data.getD (nano % 62) 'a'))

/-- generateMessageID from message.go: compact timestamp, a dash, and an
8-character random suffix. -/
def generateMessageID (now : Nat) : String :=
  timeFormatCompact now ++ "-" ++ randomString 8 now

/-- NewMessageBuilder().message: empty ID and Type, nil Data, empty Headers. -/
def newBuilderMessage : Message :=
  { id := "", mtype := "", data := none, headers := [] }

/-- MessageBuilder.WithID. -/
def withID (m : Message) (i : String) : Message :=
  { m with id := i }

/-- MessageBuilder.WithType. -/
def withType (m : Message) (t : String) : Message :=
  { m with mtype := t }

/-- MessageBuilder.WithData. -/
def withData (m : Message) (d : GoValue) : Message :=
  { m with data := some d }

/-- MessageBuilder.WithHeader (the nil-map guard of the source is the empty
list here). -/
def withHeader (m : Message) (key value : String) : Message :=
  { m with headers := headerSet m.headers key value }

/-- MessageBuilder.WithPriority: sets the "priority" header. -/
def withPriority (m : Message) (priority : String) : Message :=
  withHeader m "priority" priority

/-- MessageBuilder.WithTimestamp: sets the "timestamp" header from the clock. -/
def withTimestamp (now : Nat) (m : Message) : Message :=
  withHeader m "timestamp" (rfc3339 now)

/-- MessageBuilder.Build: auto-generates the ID when empty, then adds a
"timestamp" header when absent. -/
def build (now : Nat) (m : Message) : Message :=
  let m1 := if m.id = "" then { m with id := generateMessageID now } else m
  if (headerGet m1.headers "timestamp").isSome then m1
  else withTimestamp now m1

/-- NotificationMessage factory: type "notification", a title/body map as
data, priority "normal", then Build. -/
def notificationMessage (now : Nat) (title body : String) : Message :=
  build now (withPriority
    (withData (withType newBuilderMessage "notification")
      (.vStrMap [("title", .vString title), ("body", .vString body)]))
    "normal")

/-- AlertMessage factory: type "alert", a level/message map as data,
priority "high", then Build. -/
def alertMessage (now : Nat) (level msg : String) : Message :=
  build now (withPriority
    (withData (withType newBuilderMessage "alert")
      (.vStrMap [("level", .vString level), ("message", .vString msg)]))
    "high")

/-- Scan loop of splitLines (config.go): walks the characters, cutting the
current line at every single '\n' or '\r'; returns the pending current line
and the completed lines. -/
def scanLines : List Char → String → List String → String × List String
  | [], current, lines => (current, lines)
  | c :: rest, current, lines =>
    if c = '\n' ∨ c = '\r' then scanLines rest "" (lines ++ [current])
    else scanLines rest (current ++ String.singleton c) lines

/-- splitLines from config.go: empty input gives one empty line; otherwise
scan, then append the final pending line if it is nonempty or no line was
produced yet. -/
def splitLines (s : String) : List String :=
  if s = "" then [""]
  else
    let sc := scanLines s.data "" []
    if sc.1 ≠ "" ∨ sc.2 = [] then sc.2 ++ [sc.1] else sc.2

/-- Data rendering step of formatSSEMessage: a string payload is used
verbatim, a byte-slice payload is converted to its string, a nil payload is
json.Marshal(nil) = "null", anything else is JSON-encoded (an encoding
failure is the marshal error). -/
def sseDataString : Option GoValue → Except String String
  | some (.vString v) => Except.ok v
  | some (.vBytes v) => Except.ok v
  | some v =>
    match jsonEncode v with
    | some j => Except.ok j
    | none => Except.error "failed to marshal data"
  | none => Except.ok "null"

/-- Data-lines loop of formatSSEMessage: one "data: <line>\n" per line. -/
def sseDataBlock : List String → String
  | [] => ""
  | l :: rest => "data: " ++ l ++ "\n" ++ sseDataBlock rest

/-- SSEConnection.formatSSEMessage: "id: <id>\n" when the ID is nonempty,
"event: <type>\n" when the Type is nonempty, one data line per splitLines
line of the rendered payload, and a terminating blank line. -/
def formatSSEMessage (message : Message) : Except String String :=
  let r0 : String := ""
  let r1 := if message.id ≠ "" then r0 ++ ("id: " ++ message.id ++ "\n") else r0
  let r2 := if message.mtype ≠ "" then r1 ++ ("event: " ++ message.mtype ++ "\n") else r1
  match sseDataString message.data with
  | Except.error e => Except.error e
  | Except.ok d => Except.ok (r2 ++ sseDataBlock (splitLines d) ++ "\n")

/-- Mutable state of an SSEConnection: the closed flag, the cancellation
state of its context, the last-activity clock, and the byte strings written
to the HTTP response (the transport). -/
structure SSEConn where
  closed : Bool
  ctxCancelled : Bool
  lastActivity : Nat
  written : List String

/-- SSEConnection.IsClosed. -/
def sseIsClosed (c : SSEConn) : Bool :=
  c.closed

/-- SSEConnection.Close: a no-op returning nil when already closed; otherwise
sets the closed flag and cancels the context, returning nil. -/
def sseClose (c : SSEConn) : Option String × SSEConn :=
  if c.closed then (none, c)
  else (none, { c with closed := true, ctxCancelled := true })

/-- SSEConnection.Send: fails at once when closed (no transport write);
otherwise updates the activity clock, formats the message (a format failure
is returned, nothing written) and writes the framed bytes. The write is
raced in the source against caller cancellation and a 10s timeout; the
embedding takes the completed-write branch of that race (the others are
timing-dependent and not the subject of any claim). -/
def sseSend (now : Nat) (c : SSEConn) (m : Message) :
    Except String Unit × SSEConn :=
  if c.closed then (Except.error "client is closed", c)
  else
    let c1 := { c with lastActivity := now }
    match formatSSEMessage m with
    | Except.error e =>
      (Except.error ("failed to format SSE message: " ++ e), c1)
    | Except.ok bytes =>
      (Except.ok (), { c1 with written := c1.written ++ [bytes] })

/-- Mutable state of a WebSocketConnection: the closed flag, context
cancellation, the buffered outbound queue (capacity 256) with its
closed-channel flag, the socket state with the count of close frames
written, and the last-activity clock. -/
structure WSConn where
  closed : Bool
  ctxCancelled : Bool
  sendQueue : List Message
  sendQueueClosed : Bool
  socketClosed : Bool
  closeFramesSent : Nat
  lastActivity : Nat

/-- WebSocketConnection.IsClosed. -/
def wsIsClosed (c : WSConn) : Bool :=
  c.closed

/-- WebSocketConnection.Close: a no-op returning nil when already closed;
otherwise sets the closed flag, cancels the context, closes the outbound
queue, writes a best-effort close frame and closes the socket. -/
def wsClose (c : WSConn) : Option String × WSConn :=
  if c.closed then (none, c)
  else
    (none,
      { c with
        closed := true
        ctxCancelled := true
        sendQueueClosed := true
        closeFramesSent := c.closeFramesSent + 1
        socketClosed := true })

/-- WebSocketConnection.Send: fails at once when closed (nothing enqueued,
no socket write); otherwise races enqueueing onto the outbound queue against
caller cancellation, connection cancellation, and a 5s timeout. The
embedding resolves the race deterministically: a queue with room accepts,
then the cancellation errors, then the timeout. -/
def wsSend (callerCancelled : Bool) (c : WSConn) (m : Message) :
    Except String Unit × WSConn :=
  if c.closed then (Except.error "WebSocket connection is closed", c)
  else if !c.sendQueueClosed && c.sendQueue.length < 256 then
    (Except.ok (), { c with sendQueue := c.sendQueue ++ [m] })
  else if callerCancelled then (Except.error "context canceled", c)
  else if c.ctxCancelled then (Except.error "connection closed", c)
  else (Except.error "send timeout", c)

/-- Registry view of one connection held by the Hub: its ID, its transport
type tag, and its closed flag. -/
structure HubConn where
  cid : String
  ctype : String
  closed : Bool
deriving DecidableEq

/-- Connection.Close as the hub observes it: sets the closed flag (both
transport variants are idempotent here and return nil). -/
def hubConnClose (c : HubConn) : HubConn :=
  { c with closed := true }

/-- Connection.Send as the hub observes it: both transport variants fail
when the connection is closed and accept the message otherwise (transport
write failures beyond the closed check are timing-dependent). -/
def hubConnSend (c : HubConn) (_m : Message) : Except String Unit :=
  if c.closed then Except.error "connection is closed" else Except.ok ()

/-- State of the Hub: the registry (a map keyed by connection ID, modelled
as a list in iteration order), the running flag, the cancellation state of
the hub context, and the three bounded channels as queues. -/
structure HubState where
  connections : List HubConn
  running : Bool
  ctxCancelled : Bool
  regQueue : List HubConn
  unregQueue : List String
  bcastQueue : List Message

/-- hub.New: empty registry, not running, fresh channels. -/
def hubNew : HubState :=
  { connections := []
    running := false
    ctxCancelled := false
    regQueue := []
    unregQueue := []
    bcastQueue := [] }

/-- Hub.IsRunning. -/
def hubIsRunning (h : HubState) : Bool :=
  h.running

/-- Hub.GetConnection: registry lookup by ID. -/
def getConnection (h : HubState) (connID : String) : Option HubConn :=
  h.connections.find? (fun c => c.cid = connID)

/-- Hub.GetConnectionsByType: registry entries with the given type tag. -/
def getConnectionsByType (h : HubState) (connType : String) : List HubConn :=
  h.connections.filter (fun c => c.ctype = connType)

/-- Hub.ConnectionCount. -/
def connectionCount (h : HubState) : Nat :=
  h.connections.length

/-- Hub.RegisterConnection: refuses when not running; otherwise the select
over the register channel (capacity 100), hub cancellation and the 5s
timeout, resolved deterministically (cancellation, then a queue with room,
then the timeout). -/
def registerConnection (h : HubState) (conn : HubConn) :
    Except String HubState :=
  if !h.running then Except.error "hub is not running"
  else if h.ctxCancelled then Except.error "hub is shutting down"
  else if h.regQueue.length < 100 then
    Except.ok { h with regQueue := h.regQueue ++ [conn] }
  else Except.error "timeout registering connection"

/-- Hub.UnregisterConnection: refuses when not running; otherwise the select
over the unregister channel (capacity 100), hub cancellation and the 5s
timeout, resolved deterministically. -/
def unregisterConnection (h : HubState) (connID : String) :
    Except String HubState :=
  if !h.running then Except.error "hub is not running"
  else if h.ctxCancelled then Except.error "hub is shutting down"
  else if h.unregQueue.length < 100 then
    Except.ok { h with unregQueue := h.unregQueue ++ [connID] }
  else Except.error "timeout unregistering connection"

/-- Hub.Broadcast: refuses when not running; otherwise the select over the
broadcast channel (capacity 1000), caller cancellation, hub cancellation and
the 5s timeout, resolved deterministically. -/
def broadcast (h : HubState) (callerCancelled : Bool) (m : Message) :
    Except String HubState :=
  if !h.running then Except.error "hub is not running"
  else if callerCancelled then Except.error "context cancelled"
  else if h.ctxCancelled then Except.error "hub is shutting down"
  else if h.bcastQueue.length < 1000 then
    Except.ok { h with bcastQueue := h.bcastQueue ++ [m] }
  else Except.error "timeout broadcasting message"

/-- Hub.BroadcastToType: reads the registry by type and spawns one send
goroutine per target; it performs no running check and returns nil
unconditionally. The synchronous result is the returned error (always nil)
and the fan-out target list; the per-target sends happen asynchronously on
the spawned goroutines. -/
def broadcastToType (h : HubState) (connType : String) (_m : Message) :
    Except String Unit × List HubConn :=
  (Except.ok (), getConnectionsByType h connType)

/-- Hub.SendToConnection: looks the target up (no running check); an unknown
ID is a "not found" error; a failed Send enqueues an auto-unregister (whose
own error is discarded) and surfaces the send error. -/
def sendToConnection (h : HubState) (connID : String) (m : Message) :
    Except String Unit × HubState :=
  match getConnection h connID with
  | none => (Except.error ("connection " ++ connID ++ " not found"), h)
  | some c =>
    match hubConnSend c m with
    | Except.ok _ => (Except.ok (), h)
    | Except.error e =>
      (Except.error e,
        match unregisterConnection h connID with
        | Except.ok h2 => h2
        | Except.error _ => h)

/-- Hub.Stop: a no-op when not running; otherwise cancels the hub context,
closes every registered connection, clears the registry and drops the
running flag. The second component is the list of formerly registered
connections after Close was called on each. -/
def stopHub (h : HubState) : HubState × List HubConn :=
  if !h.running then (h, [])
  else
    ({ h with running := false, ctxCancelled := true, connections := [] },
      h.connections.map hubConnClose)

/-- Hub.handleUnregister (event-loop side): an absent ID is skipped;
a present entry is removed from the registry and closed. The second
component is the closed connection, if any. -/
def handleUnregister (h : HubState) (connID : String) :
    HubState × Option HubConn :=
  match h.connections.find? (fun c => c.cid = connID) with
  | none => (h, none)
  | some c =>
    ({ h with connections := h.connections.filter (fun e => !(e.cid = connID : Bool)) },
      some (hubConnClose c))

/-- Hub.cleanupClosedConnections: collects the IDs of registry entries whose
connection reports itself closed, then deletes those IDs from the registry. -/
def cleanupClosedConnections (h : HubState) : HubState :=
  let closedIds := (h.connections.filter (fun c => c.closed)).map (fun c => c.cid)
  { h with
    connections := h.connections.filter (fun c => !(closedIds.contains c.cid)) }

/-- Example message reused by concrete witnesses. -/
def msgEx : Message :=
  { id := "m1", mtype := "notice", data := none, headers := [] }

/-- The data-lines loop renders the same bytes as joining one
"data: <line>\n" string per line. -/
theorem sseDataBlock_eq_join (ls : List String) :
    sseDataBlock ls = String.join (ls.map fun l => "data: " ++ l ++ "\n") := by
  induction ls with
  | nil => rfl
  | cons l rest ih =>
    apply String.ext
    simp [sseDataBlock, ih]

/-- The scan loop of splitLines processes an appended chunk from the state
reached after the first chunk. -/
theorem scanLines_append (cs ds : List Char) (cur : String) (lines : List String) :
    scanLines (cs ++ ds) cur lines =
      scanLines ds (scanLines cs cur lines).1 (scanLines cs cur lines).2 := by
  induction cs generalizing cur lines with
  | nil => simp [scanLines]
  | cons c rest ih =>
    by_cases hc : c = '\n' ∨ c = '\r'
    · rw [List.cons_append, scanLines, if_pos hc, scanLines, if_pos hc]
      exact ih _ _
    · rw [List.cons_append, scanLines, if_neg hc, scanLines, if_neg hc]
      exact ih _ _

/-- On a chunk free of line terminators, the scan loop only extends the
current line. -/
theorem scanLines_termfree (cs : List Char)
    (h : ∀ c ∈ cs, ¬(c = '\n' ∨ c = '\r')) (cur : String) (lines : List String) :
    scanLines cs cur lines = (cur ++ String.mk cs, lines) := by
  induction cs generalizing cur with
  | nil =>
    rw [scanLines]
    refine Prod.ext ?_ rfl
    exact (String.append_empty cur).symm
  | cons c rest ih =>
    have hc : ¬(c = '\n' ∨ c = '\r') := h c (by simp)
    rw [scanLines, if_neg hc, ih (fun d hd => h d (List.mem_cons_of_mem _ hd))]
    refine Prod.ext ?_ rfl
    apply String.ext
    simp

/-- A string whose character list is nonempty is not the empty string. -/
theorem ne_empty_of_data_ne_nil {s : String} (h : s.data ≠ []) : s ≠ "" := by
  intro he
  rw [he] at h
  exact h rfl

/-- Scanning a terminator-free nonempty string from the initial state leaves
its characters as the pending line. -/
theorem scanLines_whole (a : String)
    (ha : ∀ c ∈ a.data, ¬(c = '\n' ∨ c = '\r')) :
    scanLines a.data "" [] = (a, []) := by
  rw [scanLines_termfree a.data ha]
  rfl

/-- A payload made of two terminator-free lines around a "\r\n" pair splits
into the first line, an extra empty line, and the second line. -/
theorem splitLines_crlf (a b : String)
    (ha : ∀ c ∈ a.data, ¬(c = '\n' ∨ c = '\r'))
    (hb : ∀ c ∈ b.data, ¬(c = '\n' ∨ c = '\r')) (hbne : b ≠ "") :
    splitLines (a ++ "\r\n" ++ b) = [a, "", b] := by
  have hdata : (a ++ "\r\n" ++ b).data = a.data ++ ('\r' :: '\n' :: b.data) := by
    simp
  have hne : (a ++ "\r\n" ++ b) ≠ "" := by
    apply ne_empty_of_data_ne_nil
    rw [hdata]
    intro hcon
    rcases List.append_eq_nil.mp hcon with ⟨-, h2⟩
    exact List.cons_ne_nil _ _ h2
  have hscan : scanLines (a ++ "\r\n" ++ b).data "" [] = (b, [a, ""]) := by
    rw [hdata, scanLines_append, scanLines_whole a ha]
    rw [scanLines, if_pos (by simp), scanLines, if_pos (by simp)]
    rw [scanLines_termfree b.data hb]
    rfl
  rw [splitLines, if_neg hne]
  simp only [hscan]
  rw [if_pos (Or.inl hbne)]
  rfl

/-- Appending one line terminator to a payload that does not already end in
one does not change its line split. -/
theorem splitLines_append_term (s : String) (t : Char)
    (ht : t = '\n' ∨ t = '\r') (h1 : s ≠ "")
    (h2 : s.data.getLast? ≠ some '\n') (h3 : s.data.getLast? ≠ some '\r') :
    splitLines (s ++ String.singleton t) = splitLines s := by
  have hsd : s.data ≠ [] := by
    intro hd
    exact h1 (String.ext hd)
  rcases List.eq_nil_or_concat s.data with hc | ⟨L, c, hLc⟩
  · exact absurd hc hsd
  have hlast : s.data.getLast? = some c := by
    rw [hLc, List.concat_eq_append, List.getLast?_append_cons, List.getLast?_singleton]
  have hcn : ¬(c = '\n' ∨ c = '\r') := by
    rintro (h | h)
    · exact h2 (by rw [hlast, h])
    · exact h3 (by rw [hlast, h])
  have hstep : scanLines s.data "" [] =
      ((scanLines L "" []).1 ++ String.singleton c, (scanLines L "" []).2) := by
    rw [hLc, List.concat_eq_append, scanLines_append]
    rw [scanLines, if_neg hcn, scanLines]
  have hcur_ne : (scanLines s.data "" []).1 ≠ "" := by
    rw [hstep]
    apply ne_empty_of_data_ne_nil
    simp
  have hterm_data : (s ++ String.singleton t).data = s.data ++ [t] := by simp
  have hterm_ne : (s ++ String.singleton t) ≠ "" := by
    apply ne_empty_of_data_ne_nil
    rw [hterm_data]
    simp
  have hscan2 : scanLines (s ++ String.singleton t).data "" [] =
      ("", (scanLines s.data "" []).2 ++ [(scanLines s.data "" []).1]) := by
    rw [hterm_data, scanLines_append]
    rw [scanLines, if_pos ht, scanLines]
  rw [splitLines, if_neg hterm_ne, splitLines, if_neg h1]
  simp only [hscan2]
  rw [if_neg (by simp), if_pos (Or.inl hcur_ne)]

/-- C2: for the literal message with ID "m1", Type "notice" and string data
"line1\nline2", formatSSEMessage returns exactly
"id: m1\nevent: notice\ndata: line1\ndata: line2\n\n" with no error; in
general, for a nonempty id and type and a string payload, the framing is the
id line, the event line, one "data: <line>\n" per splitLines line of the
payload, and a terminating blank line, with splitLines of the empty payload
being one empty line. -/
theorem C2_sse_framing :
    formatSSEMessage
        { id := "m1", mtype := "notice",
          data := some (.vString "line1\nline2"), headers := [] }
      = Except.ok "id: m1\nevent: notice\ndata: line1\ndata: line2\n\n"
  ∧ (∀ (i t s : String) (hs : List (String × String)), i ≠ "" → t ≠ "" →
      formatSSEMessage { id := i, mtype := t, data := some (.vString s), headers := hs }
        = Except.ok ("id: " ++ i ++ "\n" ++ ("event: " ++ t ++ "\n"
            ++ (String.join ((splitLines s).map fun l => "data: " ++ l ++ "\n")
                ++ "\n"))))
  ∧ splitLines "" = [""] := by
  refine ⟨rfl, ?_, rfl⟩
  intro i t s hs hi ht
  rw [formatSSEMessage]
  simp only [hi, ht, ne_eq, not_false_eq_true, if_true, if_pos,
    String.empty_append, sseDataString, sseDataBlock_eq_join]
  simp only [String.append_assoc]

/-- C2 witness: the general framing equation applied at id "a", type "b" and
the empty payload. -/
theorem C2_witness :
    formatSSEMessage { id := "a", mtype := "b", data := some (.vString ""), headers := [] }
      = Except.ok ("id: " ++ "a" ++ "\n" ++ ("event: " ++ "b" ++ "\n"
          ++ (String.join ((splitLines "").map fun l => "data: " ++ l ++ "\n")
              ++ "\n"))) :=
  C2_sse_framing.2.1 "a" "b" "" [] (by decide) (by decide)

/-- C9: the SSE line splitter treats each '\n' and each '\r' independently as
a line terminator: a payload of two terminator-free lines around "\r\n"
splits with an extra empty line between them (and the framing then emits an
extra empty data line, shown on a literal input), while appending a final
line terminator to a payload that does not already end in one leaves the
split unchanged (no trailing empty data line). -/
theorem C9_splitLines_terminators :
    (∀ a b : String,
        (∀ c ∈ a.data, ¬(c = '\n' ∨ c = '\r')) →
        (∀ c ∈ b.data, ¬(c = '\n' ∨ c = '\r')) → b ≠ "" →
        splitLines (a ++ "\r\n" ++ b) = [a, "", b])
  ∧ (∀ s : String, s ≠ "" →
        s.data.getLast? ≠ some '\n' → s.data.getLast? ≠ some '\r' →
        splitLines (s ++ "\n") = splitLines s
      ∧ splitLines (s ++ "\r") = splitLines s)
  ∧ formatSSEMessage
        { id := "m1", mtype := "notice",
          data := some (.vString "line1\r\nline2"), headers := [] }
      = Except.ok "id: m1\nevent: notice\ndata: line1\ndata: \ndata: line2\n\n" := by
  refine ⟨splitLines_crlf, ?_, rfl⟩
  intro s h1 h2 h3
  exact ⟨splitLines_append_term s '\n' (Or.inl rfl) h1 h2 h3,
    splitLines_append_term s '\r' (Or.inr rfl) h1 h2 h3⟩

/-- C9 witness: the terminator laws applied at the concrete payloads
"line1" / "line2" and "abc". -/
theorem C9_witness :
    splitLines ("line1" ++ "\r\n" ++ "line2") = ["line1", "", "line2"]
  ∧ splitLines ("abc" ++ "\n") = splitLines "abc" :=
  ⟨C9_splitLines_terminators.1 "line1" "line2" (by decide) (by decide) (by decide),
    (C9_splitLines_terminators.2.1 "abc" (by decide) (by decide) (by decide)).1⟩

/-- C4: MessageValidator.Validate returns an error exactly when the message
is nil, or its ID is empty, or its Type is empty, or its Data is non-nil and
not JSON-serializable. -/
theorem C4_validate_iff (m : Option Message) :
    (validate m).isSome = true ↔
      (m = none ∨ ∃ msg, m = some msg ∧
        (msg.id = "" ∨ msg.mtype = "" ∨
          ∃ d, msg.data = some d ∧ jsonMarshalable d = false)) := by
  cases m with
  | none => simp [validate]
  | some msg =>
    simp only [validate, Option.some.injEq, reduceCtorEq, false_or,
      exists_eq_left']
    split_ifs with h1 h2
    · simp [h1]
    · simp [h2]
    · cases hd : msg.data with
      | none => simp [h1, h2, hd]
      | some d =>
        by_cases hm : jsonMarshalable d <;>
          simp [h1, h2, hd, hm]

/-- C5: Send on an already-closed connection (either variant) returns an
error and leaves the connection state, including its transport, unchanged. -/
theorem C5_send_on_closed (now : Nat) (s : SSEConn) (m1 : Message)
    (cc : Bool) (w : WSConn) (m2 : Message)
    (hs : s.closed = true) (hw : w.closed = true) :
    sseSend now s m1 = (Except.error "client is closed", s)
  ∧ wsSend cc w m2 = (Except.error "WebSocket connection is closed", w) :=
  ⟨by rw [sseSend, if_pos hs], by rw [wsSend, if_pos hw]⟩

/-- C5 witness: Send on concrete closed SSE and WebSocket connections. -/
theorem C5_witness :
    sseSend 7 { closed := true, ctxCancelled := true, lastActivity := 0, written := [] } msgEx
      = (Except.error "client is closed",
          { closed := true, ctxCancelled := true, lastActivity := 0, written := [] })
  ∧ wsSend false
      { closed := true, ctxCancelled := true, sendQueue := [],
        sendQueueClosed := true, socketClosed := true, closeFramesSent := 1,
        lastActivity := 0 } msgEx
      = (Except.error "WebSocket connection is closed",
          { closed := true, ctxCancelled := true, sendQueue := [],
            sendQueueClosed := true, socketClosed := true, closeFramesSent := 1,
            lastActivity := 0 }) :=
  C5_send_on_closed 7 _ msgEx false _ msgEx rfl rfl

/-- C6: for both connection variants, IsClosed is true immediately after
Close, and Close on an already-closed connection returns no error and leaves
the state unchanged. -/
theorem C6_close_idempotent (s : SSEConn) (w : WSConn) :
    sseIsClosed (sseClose s).2 = true
  ∧ (s.closed = true → sseClose s = (none, s))
  ∧ wsIsClosed (wsClose w).2 = true
  ∧ (w.closed = true → wsClose w = (none, w)) := by
  refine ⟨?_, fun h => by rw [sseClose, if_pos h], ?_,
    fun h => by rw [wsClose, if_pos h]⟩
  · by_cases h : s.closed <;> simp [sseClose, sseIsClosed, h]
  · by_cases h : w.closed <;> simp [wsClose, wsIsClosed, h]

/-- C6 witness: Close on concrete already-closed connections is a no-op, and
IsClosed holds after Close on concrete open connections. -/
theorem C6_witness :
    sseClose { closed := true, ctxCancelled := true, lastActivity := 3, written := ["x"] }
      = (none, { closed := true, ctxCancelled := true, lastActivity := 3, written := ["x"] })
  ∧ sseIsClosed (sseClose { closed := false, ctxCancelled := false, lastActivity := 0, written := [] }).2 = true
  ∧ wsClose
      { closed := true, ctxCancelled := true, sendQueue := [], sendQueueClosed := true,
        socketClosed := true, closeFramesSent := 1, lastActivity := 0 }
      = (none,
          { closed := true, ctxCancelled := true, sendQueue := [], sendQueueClosed := true,
            socketClosed := true, closeFramesSent := 1, lastActivity := 0 }) :=
  ⟨(C6_close_idempotent
      { closed := true, ctxCancelled := true, lastActivity := 3, written := ["x"] }
      { closed := true, ctxCancelled := true, sendQueue := [], sendQueueClosed := true,
        socketClosed := true, closeFramesSent := 1, lastActivity := 0 }).2.1 rfl,
    (C6_close_idempotent
      { closed := false, ctxCancelled := false, lastActivity := 0, written := [] }
      { closed := true, ctxCancelled := true, sendQueue := [], sendQueueClosed := true,
        socketClosed := true, closeFramesSent := 1, lastActivity := 0 }).1,
    (C6_close_idempotent
      { closed := true, ctxCancelled := true, lastActivity := 3, written := ["x"] }
      { closed := true, ctxCancelled := true, sendQueue := [], sendQueueClosed := true,
        socketClosed := true, closeFramesSent := 1, lastActivity := 0 }).2.2.2 rfl⟩

/-- An auto-generated message ID is never empty (it always contains the dash
between the timestamp part and the random suffix). -/
theorem generateMessageID_ne_empty (now : Nat) : generateMessageID now ≠ "" := by
  intro h
  have hlen := congrArg String.length h
  rw [generateMessageID, String.length_append, String.length_append] at hlen
  have hdash : ("-" : String).length = 1 := rfl
  have hempty : ("" : String).length = 0 := rfl
  rw [hdash, hempty] at hlen
  omega

/-- C10: NotificationMessage and AlertMessage always build a message that
passes MessageValidator.Validate, and the built message carries both a
"priority" header and a "timestamp" header. -/
theorem C10_factories_valid (now : Nat) (title body level alert : String) :
    validate (some (notificationMessage now title body)) = none
  ∧ headerGet (notificationMessage now title body).headers "priority" = some "normal"
  ∧ (headerGet (notificationMessage now title body).headers "timestamp").isSome = true
  ∧ validate (some (alertMessage now level alert)) = none
  ∧ headerGet (alertMessage now level alert).headers "priority" = some "high"
  ∧ (headerGet (alertMessage now level alert).headers "timestamp").isSome = true := by
  have hid := generateMessageID_ne_empty now
  have hnotif : notificationMessage now title body =
      { id := generateMessageID now, mtype := "notification",
        data := some (.vStrMap [("title", .vString title), ("body", .vString body)]),
        headers := [("priority", "normal"), ("timestamp", rfc3339 now)] } := by
    rw [notificationMessage]
    rfl
  have halert : alertMessage now level alert =
      { id := generateMessageID now, mtype := "alert",
        data := some (.vStrMap [("level", .vString level), ("message", .vString alert)]),
        headers := [("priority", "high"), ("timestamp", rfc3339 now)] } := by
    rw [alertMessage]
    rfl
  refine ⟨?_, ?_, ?_, ?_, ?_, ?_⟩
  · rw [hnotif]
    simp [validate, hid, jsonMarshalable, jsonEncode, jsonEncodeFields]
  · rw [hnotif, headerGet]
    rfl
  · rw [hnotif, headerGet]
    rfl
  · rw [halert]
    simp [validate, hid, jsonMarshalable, jsonEncode, jsonEncodeFields]
  · rw [halert, headerGet]
    rfl
  · rw [halert, headerGet]
    rfl

/-- C1 (amended): RegisterConnection, UnregisterConnection and Broadcast
return the "hub is not running" error whenever the hub is not running, but
BroadcastToType performs no running check and returns no error, and
SendToConnection performs no running check either: its returned error is
independent of the running flag. -/
theorem C1_not_running_checks :
    (∀ (h : HubState) (conn : HubConn) (cid : String) (cc : Bool) (m : Message),
        h.running = false →
          registerConnection h conn = Except.error "hub is not running"
        ∧ unregisterConnection h cid = Except.error "hub is not running"
        ∧ broadcast h cc m = Except.error "hub is not running")
  ∧ (∀ (h : HubState) (ty : String) (m : Message),
        (broadcastToType h ty m).1 = Except.ok ())
  ∧ (∀ (h : HubState) (cid : String) (m : Message) (b : Bool),
        (sendToConnection { h with running := b } cid m).1
          = (sendToConnection h cid m).1) := by
  refine ⟨?_, fun h ty m => rfl, ?_⟩
  · intro h conn cid cc m hr
    refine ⟨?_, ?_, ?_⟩
    · rw [registerConnection, hr]
      rfl
    · rw [unregisterConnection, hr]
      rfl
    · rw [broadcast, hr]
      rfl
  · intro h cid m b
    have hg : getConnection { h with running := b } cid = getConnection h cid := rfl
    cases hfind : getConnection h cid with
    | none => rw [sendToConnection, sendToConnection, hg, hfind]
    | some c =>
      rw [sendToConnection, sendToConnection, hg, hfind]
      cases hsend : hubConnSend c m with
      | ok u => simp only [hsend]
      | error e => simp only [hsend]

/-- C1 counterexample: on the freshly constructed hub, which is not running,
BroadcastToType returns no error at all, and SendToConnection returns the
"not found" error rather than a "hub is not running" one — contradicting the
claim that every one of the five public operations fails with a not-running
error in that state. -/
theorem C1_counterexample :
    hubIsRunning hubNew = false
  ∧ (broadcastToType hubNew "sse" msgEx).1 = Except.ok ()
  ∧ (sendToConnection hubNew "c1" msgEx).1
      = Except.error "connection c1 not found" :=
  ⟨rfl, rfl, rfl⟩

/-- C1 witness: the amended statement applied on the fresh hub. -/
theorem C1_witness :
    registerConnection hubNew { cid := "c1", ctype := "sse", closed := false }
      = Except.error "hub is not running"
  ∧ (broadcastToType hubNew "websocket" msgEx).1 = Except.ok () :=
  ⟨(C1_not_running_checks.1 hubNew
      { cid := "c1", ctype := "sse", closed := false } "x" false msgEx rfl).1,
    C1_not_running_checks.2.1 hubNew "websocket" msgEx⟩

/-- C3: stopping a running hub leaves it not running with an empty registry
(zero count, every lookup absent), and every connection that was registered
at the moment of Stop has been closed. -/
theorem C3_stop (h : HubState) (hr : h.running = true) :
    hubIsRunning (stopHub h).1 = false
  ∧ (stopHub h).1.connections = []
  ∧ connectionCount (stopHub h).1 = 0
  ∧ (∀ cid, getConnection (stopHub h).1 cid = none)
  ∧ (stopHub h).2 = h.connections.map hubConnClose
  ∧ (∀ c ∈ (stopHub h).2, c.closed = true) := by
  have hs : stopHub h =
      ({ h with running := false, ctxCancelled := true, connections := [] },
        h.connections.map hubConnClose) := by
    rw [stopHub, hr]
    rfl
  refine ⟨by rw [hs]; rfl, by rw [hs], by rw [hs]; rfl,
    fun cid => by rw [hs]; rfl, by rw [hs], ?_⟩
  intro c hc
  rw [hs] at hc
  rcases List.mem_map.mp hc with ⟨a, -, rfl⟩
  rfl

/-- Example hub used by the C3 witness: running, one open connection. -/
def hubRunEx : HubState :=
  { connections := [{ cid := "c1", ctype := "sse", closed := false }]
    running := true
    ctxCancelled := false
    regQueue := []
    unregQueue := []
    bcastQueue := [] }

/-- C3 witness: stopping the concrete running hub empties the registry and
yields the closed former connection. -/
theorem C3_witness :
    hubIsRunning (stopHub hubRunEx).1 = false
  ∧ getConnection (stopHub hubRunEx).1 "c1" = none
  ∧ (stopHub hubRunEx).2
      = [{ cid := "c1", ctype := "sse", closed := true }] :=
  ⟨(C3_stop hubRunEx rfl).1, (C3_stop hubRunEx rfl).2.2.2.1 "c1",
    (C3_stop hubRunEx rfl).2.2.2.2.1⟩

/-- C7: the event loop's unregister handling of an id absent from the
registry changes nothing and closes no connection, while the public
UnregisterConnection on a running hub (context alive, channel with room)
returns no error for every id, known or not. -/
theorem C7_unregister_idempotent :
    (∀ (h : HubState) (cid : String), getConnection h cid = none →
        handleUnregister h cid = (h, none))
  ∧ (∀ (h : HubState) (cid : String),
        h.running = true → h.ctxCancelled = false → h.unregQueue.length < 100 →
        unregisterConnection h cid =
          Except.ok { h with unregQueue := h.unregQueue ++ [cid] }) := by
  constructor
  · intro h cid hfind
    rw [getConnection] at hfind
    rw [handleUnregister, hfind]
  · intro h cid hr hc hlen
    rw [unregisterConnection, hr, hc]
    simp [hlen]

/-- C7 witness: unregistering the unknown id "ghost" on a concrete running
hub with a different registered connection: the loop handling is a no-op and
the public call returns no error. -/
theorem C7_witness :
    handleUnregister hubRunEx "ghost" = (hubRunEx, none)
  ∧ unregisterConnection hubRunEx "ghost"
      = Except.ok { hubRunEx with unregQueue := ["ghost"] } :=
  ⟨C7_unregister_idempotent.1 hubRunEx "ghost" rfl,
    C7_unregister_idempotent.2 hubRunEx "ghost" rfl rfl (by decide)⟩

/-- Under unique registry keys, membership of a connection's id among the
ids of the closed entries decides exactly its own closed flag. -/
theorem closedIds_contains_eq (h : HubState)
    (hnd : (h.connections.map (fun c => c.cid)).Nodup)
    (c : HubConn) (hc : c ∈ h.connections) :
    ((h.connections.filter (fun c => c.closed)).map (fun c => c.cid)).contains c.cid
      = c.closed := by
  cases hcl : c.closed with
  | true =>
    have hmem : c ∈ h.connections.filter (fun c => c.closed) :=
      List.mem_filter.mpr ⟨hc, hcl⟩
    have : c.cid ∈ (h.connections.filter (fun c => c.closed)).map (fun c => c.cid) :=
      List.mem_map_of_mem _ hmem
    simpa using this
  | false =>
    rw [Bool.eq_false_iff]
    intro hcon
    have hmem : c.cid ∈ (h.connections.filter (fun c => c.closed)).map (fun c => c.cid) := by
      simpa using hcon
    rcases List.mem_map.mp hmem with ⟨e, he, heq⟩
    rcases List.mem_filter.mp he with ⟨heConn, heClosed⟩
    have : e = c := List.inj_on_of_nodup_map hnd heConn hc heq
    rw [this] at heClosed
    rw [hcl] at heClosed
    exact Bool.false_ne_true heClosed

/-- C8: after one run of the cleanup sweep, the registry contains no entry
whose connection reports itself closed; under the registry's unique-key
invariant the surviving registry is exactly the open entries, unchanged and
in order. -/
theorem C8_cleanup_sweep (h : HubState)
    (hnd : (h.connections.map (fun c => c.cid)).Nodup) :
    (∀ c ∈ (cleanupClosedConnections h).connections, c.closed = false)
  ∧ (cleanupClosedConnections h).connections
      = h.connections.filter (fun c => !c.closed)
  ∧ (∀ c ∈ h.connections, c.closed = false →
        c ∈ (cleanupClosedConnections h).connections)
  ∧ (∀ c ∈ (cleanupClosedConnections h).connections, c ∈ h.connections) := by
  have heq : (cleanupClosedConnections h).connections
      = h.connections.filter (fun c => !c.closed) := by
    rw [cleanupClosedConnections]
    apply List.filter_congr
    intro c hc
    rw [closedIds_contains_eq h hnd c hc]
  refine ⟨?_, heq, ?_, ?_⟩
  · intro c hc
    rw [heq] at hc
    have := (List.mem_filter.mp hc).2
    simpa using this
  · intro c hc hop
    rw [heq]
    exact List.mem_filter.mpr ⟨hc, by rw [hop]; rfl⟩
  · intro c hc
    rw [heq] at hc
    exact (List.mem_filter.mp hc).1

/-- Example hub used by the C8 witness: one closed and one open entry. -/
def hubSweepEx : HubState :=
  { connections := [{ cid := "c1", ctype := "sse", closed := true },
      { cid := "c2", ctype := "websocket", closed := false }]
    running := true
    ctxCancelled := false
    regQueue := []
    unregQueue := []
    bcastQueue := [] }

/-- C8 witness: the sweep on the concrete registry drops the closed entry
and keeps the open one unchanged. -/
theorem C8_witness :
    (cleanupClosedConnections hubSweepEx).connections
      = [{ cid := "c2", ctype := "websocket", closed := false }]
  ∧ ({ cid := "c2", ctype := "websocket", closed := false } : HubConn)
      ∈ (cleanupClosedConnections hubSweepEx).connections :=
  ⟨(C8_cleanup_sweep hubSweepEx (by decide)).2.1,
    (C8_cleanup_sweep hubSweepEx (by decide)).2.2.1
      { cid := "c2", ctype := "websocket", closed := false }
      (by decide) rfl⟩
